import Mathlib

/-!
# Verification of the dcdashboard data-access layer

A shallow embedding of the core of the `dcdashboard` backend (the per-request
Oracle session lifecycle, the dynamic SQL/bind-parameter builders and the
row-to-model mappers of `app/services`), together with theorems settling the
specification claims about it.

SQL texts are transcribed verbatim from the Python sources.  Each long literal
is written as a concatenation of chunk literals split at line boundaries only,
so that scanning functions can be evaluated chunk by chunk; the concatenation
is character-for-character the source literal.
-/

/-! ## String scanning infrastructure

Named bind placeholders (`:name`), substring occurrence and substring counting
over `List Char`, with lemmas that let a scan of a concatenation be computed
from scans of the pieces. -/

/-- Characters that may appear in a named bind placeholder after the colon. -/
def isIdentChar (c : Char) : Bool := c.isAlphanum || c = '_'

/-- One-pass placeholder scanner.  The state is `none` outside a placeholder and
`some acc` inside one, where `acc` holds the name characters read so far, in
reverse order. -/
def scanAux : List Char → Option (List Char) → List String
  | [], none => []
  | [], some acc => if acc.isEmpty then [] else [String.mk acc.reverse]
  | c :: rest, none => if c = ':' then scanAux rest (some []) else scanAux rest none
  | c :: rest, some acc =>
    if isIdentChar c then scanAux rest (some (c :: acc))
    else
      (if acc.isEmpty then [] else [String.mk acc.reverse]) ++
        (if c = ':' then scanAux rest (some []) else scanAux rest none)

/-- The scanner state after consuming a list of characters. -/
def finalState : List Char → Option (List Char) → Option (List Char)
  | [], st => st
  | c :: rest, none => finalState rest (if c = ':' then some [] else none)
  | c :: rest, some acc =>
    finalState rest
      (if isIdentChar c then some (c :: acc)
       else if c = ':' then some [] else none)

/-- The named bind placeholders occurring in a SQL text, in occurrence order,
with multiplicity. -/
def scanPlaceholders (s : String) : List String := scanAux s.data none

/-- Does `pat` occur as a contiguous sublist of the second argument? -/
def containsSub (pat : List Char) : List Char → Bool
  | [] => pat.isEmpty
  | c :: rest => pat.isPrefixOf (c :: rest) || containsSub pat rest

/-- Number of positions at which `pat` occurs in the second argument. -/
def countSub (pat : List Char) : List Char → Nat
  | [] => if pat.isEmpty then 1 else 0
  | c :: rest => (if pat.isPrefixOf (c :: rest) then 1 else 0) + countSub pat rest

/-- Does `pat` occur as a contiguous substring of `s`? -/
def containsStr (pat s : String) : Bool := containsSub pat.data s.data

/-- Number of occurrences of `pat` in `s`. -/
def countStr (pat s : String) : Nat := countSub pat.data s.data

/-! ## SQL texts of `_build_open_order_lines_query` and the hold-history service -/

def openOrderLinesBaseChunk1 : String :=
  "\nWITH iteminfo\n  As (Select flex_value_set_name, flex_value, ffvt.description\n     From apps.fnd_flex_values_vl ffvt, apps.fnd_flex_value_sets ffvs\n    Where  ffvs.flex_value_set_name In ('GROUP_VS', 'VENDOR_VS')\n    And ffvs.flex_value_set_id = ffvt.flex_value_set_id\n    And ffvt.enabled_flag = 'Y'\n    And TRUNC(SYSDATE) Between TRUNC(NVL(ffvt.start_date_active, SYSDATE))\n            And TRUNC(NVL(ffvt.end_date_active, SYSDATE + 1)))\n   ,\n opendcopenlines AS (\n    SELECT ORDERED_DATE,\n           LINE_CATEGORY_CODE,\n           ORDERED_ITEM,\n           CASE\n               WHEN LINE_TYPE = 'ATD Internal Sales Line' THEN 'INTERNAL ORDER'\n               ELSE 'CUSTOMER ORDER'\n"

def openOrderLinesBaseChunk2 : String :=
  "           END AS order_category,\n           a.inventory_item_id,\n           a.ORIG_SYS_DOCUMENT_REF,\n           order_number,\n           line_id,\n           a.SHIPPING_INSTRUCTIONS,\n           line_number || '.' || shipment_number AS line,\n           A.schedule_ship_date,\n           ordered_quantity,\n           case when wdd1.released_Status = 'Y' then SUM(NVL(wdd1.requested_quantity, 0))  else SUM(NVL(RESERVATION_QUANTITY, 0)) end AS reservedqty,\n           carrier_name SHIPPING_METHOD_CODE,\n           a.attribute8 AS iso,\n           ATTRIBUTE17 AS fullfilmenttype,\n           REPLACE(LINE_TYPE, 'Line', '') AS ordertype,\n           PRICE_LIST,\n           SOLD_TO,\n"

def openOrderLinesBaseChunk3 : String :=
  "           ship_From AS DC,\n           SHIP_TO,\n           SHIP_TO_ADDRESS1,\n           SHIP_TO_ADDRESS5,\n           SET_NAME,\n           A.header_id,\n           '' AS shiptoaddressee,\n           wdd.delivery_id,\n           CASE\n               WHEN ORIGINAL_LINE_STATUS IS NULL THEN\n                   CASE\n                       WHEN wdd1.released_Status = 'R' THEN 'Ready to Release'\n                       WHEN wdd1.released_Status = 'B' THEN 'Backordered'\n                       ELSE NULL\n                   END\n               ELSE ORIGINAL_LINE_STATUS\n           END AS ORIGINAL_LINE_STATUS\n           ,null trip_id\n    FROM oe_order_lines_v a,\n         mtl_reservations mr,\n"

def openOrderLinesBaseChunk4 : String :=
  "         apps.wsh_Delivery_Details_oe_V wdd,\n         apps.wsh_Delivery_Details wdd1,\n         OE_SETS\n         ,wsh_Carriers_v wcv\n    WHERE a.ship_from_org_id = :dc\n      AND a.open_flag = 'Y'\n      AND wdd.source_line_id(+) = a.line_id\n      AND wdd1.source_line_id = a.line_id\n      AND wdd1.delivery_Detail_id = wdd.delivery_Detail_id(+)\n      AND wdd1.source_code = 'OE'\n      AND A.SHIP_sET_ID = SET_ID(+)\n                              and wcv.freight_code = a.freight_carrier_code\n      AND a.line_id = mr.demand_source_line_id(+)\n      AND a.line_type NOT IN (\n          'ATD Bill Only Line',\n          'ATD Vendor Direct Ship Line',\n          'ATD STHVendor Direct Ship Line'\n      )\n"

def openOrderLinesBaseChunk5 : String :=
  "      AND a.ordered_date > SYSDATE - :days_back\n"

/-- The base CTE SQL literal of `_build_open_order_lines_query` (dc_order_line_service.py,
source lines 106-178), transcribed verbatim as the concatenation of the chunk literals above
(split at line boundaries only, to keep kernel reduction shallow) -/
def openOrderLinesBase : String :=
  openOrderLinesBaseChunk1 ++ openOrderLinesBaseChunk2 ++ openOrderLinesBaseChunk3 ++ openOrderLinesBaseChunk4 ++ openOrderLinesBaseChunk5

/-- Optional order-number filter fragment (dc_order_line_service.py line 182). -/
def fragOrderNumber : String := "      AND order_number = :order_number\n"

/-- Optional ordered-item filter fragment (dc_order_line_service.py line 184). -/
def fragOrderedItem : String := "      AND UPPER(ORDERED_ITEM) LIKE :ordered_item\n"

def openOrderLinesTailChunk1 : String :=
  "    GROUP BY ORDERED_DATE,\n             LINE_CATEGORY_CODE,\n             ORDERED_ITEM,\n             a.ORIG_SYS_DOCUMENT_REF,\n             order_number,\n             a.inventory_item_id,\n             line_id,\n             line_number || '.' || shipment_number,\n             A.schedule_ship_date,\n             ordered_quantity,\n             carrier_name,\n             ATTRIBUTE17,\n             LINE_TYPE,\n             PRICE_LIST,\n             SOLD_TO,\n             ship_From,\n             SHIP_TO,\n             SHIP_TO_ADDRESS1,\n             SHIP_TO_ADDRESS5,\n             SET_NAME,\n             a.SHIPPING_INSTRUCTIONS,\n             delivery_id,\n             ORIGINAL_LINE_STATUS,\n"

def openOrderLinesTailChunk2 : String :=
  "             a.attribute8,\n             A.header_id,\n             wdd1.released_Status \n             union all\n             Select ORDERED_DATE\n    , LINE_CATEGORY_CODE\n    , ORDERED_ITEM\n    , Case\n       When LINE_TYPE = 'ATD Internal Sales Line' Then 'INTERNAL ORDER'\n       Else 'CUSTOMER ORDER'\n      End\n       As order_category\n    , a.inventory_item_id\n    , a.ORIG_SYS_DOCUMENT_REF\n    , order_number\n    , line_id\n    , a.SHIPPING_INSTRUCTIONS\n    , line_number || '.' || shipment_number As line\n    , A.schedule_ship_date\n    , ordered_quantity\n    , a.shipped_quantity reservedqty\n    , carrier_name        SHIPPING_METHOD_CODE\n    , a.attribute8        As iso\n"

def openOrderLinesTailChunk3 : String :=
  "    , ATTRIBUTE17        As fullfilmenttype\n    , REPLACE(LINE_TYPE, 'Line', '')   As ordertype\n    , PRICE_LIST\n    , SOLD_TO\n    , ship_From         As DC\n    , SHIP_TO\n    , SHIP_TO_ADDRESS1\n    , SHIP_TO_ADDRESS5\n    , SET_NAME\n    , A.header_id\n    , ''          As shiptoaddressee\n    , wdd.delivery_id\n    , Case\n       When ORIGINAL_LINE_STATUS Is Null\n       Then\n        Case\n         When wdd1.released_Status = 'R' Then 'Ready to Release'\n         When wdd1.released_Status = 'B' Then 'Backordered'\n         Else Null\n        End\n       Else\n        ORIGINAL_LINE_STATUS\n      End\n       As ORIGINAL_LINE_STATUS\n    ,trip_id\n    From oe_order_lines_v      a\n"

def openOrderLinesTailChunk4 : String :=
  "    , apps.wsh_Delivery_Details_oe_V wdd\n    , apps.wsh_Delivery_Details    wdd1\n    , OE_SETS\n    , wsh_Carriers_v      wcv\n    , wsh_new_deliveries     wnd\n    ,wsh_trip_deliveries_v wtd\n   Where   a.ship_from_org_id = :dc\n      And wdd.source_line_id = a.line_id\n      And wdd1.source_line_id = a.line_id\n      AND wdd1.delivery_Detail_id = wdd.delivery_Detail_id\n      And wdd1.source_code = 'OE'\n      And A.SHIP_sET_ID = SET_ID(+)\n      And wnd.delivery_id = wdd.delivery_id\n      And wcv.freight_code = a.freight_carrier_code\n      And wnd.confirm_Date Between TRUNC(SYSDATE) And TRUNC(SYSDATE+1)\n      and wnd.organization_id = :dc\n      and wnd.delivery_id = wtd.delivery_id\n"

def openOrderLinesTailChunk5 : String :=
  "      And a.line_type Not In\n        ('ATD Bill Only Line'\n       , 'ATD Vendor Direct Ship Line'\n       , 'ATD STHVendor Direct Ship Line')\n      And a.ordered_date > SYSDATE - :days_back\n   Group By ORDERED_DATE\n    , LINE_CATEGORY_CODE\n    , ORDERED_ITEM\n    , a.ORIG_SYS_DOCUMENT_REF\n    , order_number\n    , a.inventory_item_id\n    , line_id\n    , line_number || '.' || shipment_number\n    , A.schedule_ship_date\n    , ordered_quantity\n    , carrier_name\n    , ATTRIBUTE17\n    , LINE_TYPE\n    , PRICE_LIST\n    ,a.shipped_quantity\n    , SOLD_TO\n    , ship_From\n    , SHIP_TO\n    , SHIP_TO_ADDRESS1\n    , SHIP_TO_ADDRESS5\n    , SET_NAME\n    , a.SHIPPING_INSTRUCTIONS\n    , wdd.delivery_id\n"

def openOrderLinesTailChunk6 : String :=
  "    , ORIGINAL_LINE_STATUS\n    , a.attribute8\n    , A.header_id\n    , wdd1.released_Status\n    ,trip_id\n)\nSELECT c.*,\n       CASE\n           WHEN (SELECT COUNT(1)\n                 FROM OE_HOLDS_HISTORY_V\n                 WHERE header_id = c.header_id) > 0\n           THEN 'Y'\n           ELSE 'N'\n       END AS holdapplied,\n       CASE\n           WHEN (SELECT COUNT(1)\n                 FROM OE_HOLDS_HISTORY_V\n                 WHERE header_id = c.header_id\n                   AND RELEASED_FLAG = 'Y') > 0\n           THEN 'Y'\n           ELSE 'N'\n       END AS holdreleased,\n       CASE\n           WHEN (SELECT COUNT(1)\n                 FROM XXATDMSA_DCARTORDER_OBPAYLOAD\n"

def openOrderLinesTailChunk7 : String :=
  "                 WHERE order_number = c.order_number\n                   AND line_id LIKE '%' || c.line_id || '%') > 0\n           THEN 'Y'\n           ELSE 'N'\n       END AS routed,\t  product_group\n\t   || '-'\n\t   || (\n\t\t\t  Select description\n\t\t\t\tFrom iteminfo\n\t\t\t   Where\t flex_value_set_name = 'GROUP_VS'\n\t\t\t\t\t And flex_value = product_group\n\t\t  )\n\t\t   productgrp\n\t\t   ,\t  vendor\n\t   || '-'\n\t   || (\n\t\t\t  Select description\n\t\t\t\tFrom iteminfo\n\t\t\t   Where\t flex_value_set_name = 'VENDOR_VS'\n\t\t\t\t\t And flex_value = vendor\n\t\t  )\n\t\t   vendor\n\t , (\n\t\t   Select mc.description\n\t\t\t From apps.mtl_item_categories\tmic\n\t\t\t\t, apps.mtl_categories\t\tmc\n\t\t\t\t, apps.mtl_category_sets_vl mcst\n"

def openOrderLinesTailChunk8 : String :=
  "\t\t\tWhere\t  mcst.category_set_name = 'VGS_TRIPLE_SEGMENT'\n\t\t\t\t  And mic.inventory_item_id = xie.inventory_item_id\n\t\t\t\t  And mic.organization_id = 83\n\t\t\t\t  And mc.category_id = mic.category_id\n\t\t\t\t  And mic.category_set_id = mcst.category_set_id\n\t   )\n\t\t   style\n\t , DESCRIPTION item_description\n     , Case\n     When  ORIGINAL_LINE_STATUS In ('Backordered', 'Ready to Release')\n    And reservedqty = 0\n    And (\n      Select COUNT(1)\n        From xxatdont_network_inventory\n       Where    inventory_item_id = c.inventory_item_id\n          And organization_id = :dc\n          And localplus_qty > 0\n     ) > 0\n     Then\n      'Y'\n     When  ORIGINAL_LINE_STATUS In ('Backordered', 'Ready to Release')\n"

def openOrderLinesTailChunk9 : String :=
  "    And reservedqty = 0\n    And (\n      Select COUNT(1)\n        From xxatdont_network_inventory\n       Where    inventory_item_id = c.inventory_item_id\n          And organization_id = :dc\n          And localplus_qty > 0\n     ) = 0\n     Then\n      'N'\n     Else\n      Null\n    End\n     As localplusqtyexists,\n     (Select localplus_qty\n        From xxatdont_network_inventory\n       Where    inventory_item_id = c.inventory_item_id\n          And organization_id = :dc\n     ) As localplusqty\nFROM opendcopenlines c, xxatdmrp_item_elements_v xie\nWhere c.inventory_item_id = xie.inventory_item_id\n \n"

/-- The GROUP BY clause, the second UNION ALL branch and the outer SELECT of
`_build_open_order_lines_query` (dc_order_line_service.py, source lines 187-399),
transcribed verbatim as the concatenation of the chunk literals above -/
def openOrderLinesTail : String :=
  openOrderLinesTailChunk1 ++ openOrderLinesTailChunk2 ++ openOrderLinesTailChunk3 ++ openOrderLinesTailChunk4 ++ openOrderLinesTailChunk5 ++ openOrderLinesTailChunk6 ++ openOrderLinesTailChunk7 ++ openOrderLinesTailChunk8 ++ openOrderLinesTailChunk9

def holdHistorySqlWithLineChunk1 : String :=
  "\n                SELECT held_by,\n                       hold_name,\n                       HOLD_ENTITY_CODE_VALUE AS holdlevel,\n                       APPLIED_DATE,\n                       APPLIED_BY,\n                       RELEASED_FLAG,\n                       RELEASED_DATE,\n                       RELEASED_BY,\n                       RELEASE_REASON_CODE,\n                       RELEASE_COMMENT\n                  FROM oe_holds_history_v\n                 WHERE header_id = :header_id\n                   AND line_id IS NULL\n                 UNION\n                SELECT held_by,\n                       hold_name,\n                       HOLD_ENTITY_CODE_VALUE AS holdlevel,\n"

def holdHistorySqlWithLineChunk2 : String :=
  "                       APPLIED_DATE,\n                       APPLIED_BY,\n                       RELEASED_FLAG,\n                       RELEASED_DATE,\n                       RELEASED_BY,\n                       RELEASE_REASON_CODE,\n                       RELEASE_COMMENT\n                  FROM oe_holds_history_v\n                 WHERE header_id = :header_id\n                   AND line_id = :line_id\n                 ORDER BY APPLIED_DATE\n            "

/-- The part of `openOrderLinesTailChunk2` strictly before the `union all` separator. -/
def openOrderLinesTailChunk2a : String :=
  "             a.attribute8,\n             A.header_id,\n             wdd1.released_Status \n             "

/-- The part of `openOrderLinesTailChunk2` from the `union all` separator on. -/
def openOrderLinesTailChunk2b : String :=
  "union all\n             Select ORDERED_DATE\n    , LINE_CATEGORY_CODE\n    , ORDERED_ITEM\n    , Case\n       When LINE_TYPE = 'ATD Internal Sales Line' Then 'INTERNAL ORDER'\n       Else 'CUSTOMER ORDER'\n      End\n       As order_category\n    , a.inventory_item_id\n    , a.ORIG_SYS_DOCUMENT_REF\n    , order_number\n    , line_id\n    , a.SHIPPING_INSTRUCTIONS\n    , line_number || '.' || shipment_number As line\n    , A.schedule_ship_date\n    , ordered_quantity\n    , a.shipped_quantity reservedqty\n    , carrier_name        SHIPPING_METHOD_CODE\n    , a.attribute8        As iso\n"

/-- The tail text before the `union all` separator: the tail of the first branch
(its GROUP BY clause). -/
def openOrderLinesTailPreUnion : String :=
  openOrderLinesTailChunk1 ++ openOrderLinesTailChunk2a

/-- The tail text from the first `union all` separator on: the whole second branch
and the outer SELECT. -/
def openOrderLinesTailFromUnion : String :=
  openOrderLinesTailChunk2b ++ openOrderLinesTailChunk3 ++ openOrderLinesTailChunk4 ++
    openOrderLinesTailChunk5 ++ openOrderLinesTailChunk6 ++ openOrderLinesTailChunk7 ++
    openOrderLinesTailChunk8 ++ openOrderLinesTailChunk9

/-- Hold-history SQL used when line_id is provided
(order_hold_history_service.py, source lines 51-80) -/
def holdHistorySqlWithLine : String :=
  holdHistorySqlWithLineChunk1 ++ holdHistorySqlWithLineChunk2

def holdHistorySqlHeaderOnlyChunk1 : String :=
  "\n                SELECT held_by,\n                       hold_name,\n                       HOLD_ENTITY_CODE_VALUE AS holdlevel,\n                       APPLIED_DATE,\n                       APPLIED_BY,\n                       RELEASED_FLAG,\n                       RELEASED_DATE,\n                       RELEASED_BY,\n                       RELEASE_REASON_CODE,\n                       RELEASE_COMMENT\n                  FROM oe_holds_history_v\n                 WHERE header_id = :header_id\n                   AND line_id IS NULL\n                 ORDER BY APPLIED_DATE\n            "

/-- Hold-history SQL used when line_id is absent
(order_hold_history_service.py, source lines 84-99) -/
def holdHistorySqlHeaderOnly : String :=
  holdHistorySqlHeaderOnlyChunk1


/-! ## The open-order-lines query service (`dc_order_line_service.py`) -/

/-- Python truthiness of an optional integer: `None` and `0` are falsy. -/
def pyTruthyInt : Option Int → Bool
  | none => false
  | some n => n != 0

/-- Python truthiness of an optional string: `None` and `""` are falsy. -/
def pyTruthyStr : Option String → Bool
  | none => false
  | some s => s != ""

/-- `str.upper`, modelled for ASCII text (the only text the claims exercise). -/
def pyUpper (s : String) : String := String.map Char.toUpper s

/-- A value bound to a named SQL parameter. -/
inductive BindVal
  | int (n : Int)
  | str (s : String)
deriving DecidableEq

/-- `_build_open_order_lines_query` (dc_order_line_service.py lines 88-401): the base
CTE skeleton, then the optional order-number and ordered-item fragments appended only
when the corresponding argument is truthy, then the GROUP BY / UNION ALL / outer
SELECT tail.  As in the source, the `dc` argument is received but never used in the
SQL text (the `:dc` placeholder is part of the fixed skeleton). -/
def buildOpenOrderLinesQuery (order_number : Option Int) (ordered_item : Option String)
    (dc : Option Int) : String :=
  let sql := openOrderLinesBase
  let sql := if pyTruthyInt order_number then sql ++ fragOrderNumber else sql
  let sql := if pyTruthyStr ordered_item then sql ++ fragOrderedItem else sql
  sql ++ openOrderLinesTail

/-- The bind-parameter dictionary built in `get_open_order_lines` (lines 51-57), as an
insertion-ordered association list: `days_back` always, then `order_number`,
`ordered_item` (upper-cased and wrapped in `%` wildcards) and `dc`, each only when
truthy. -/
def openOrderLinesParams (order_number : Option Int) (ordered_item : Option String)
    (dc : Option Int) (days_back : Int) : List (String × BindVal) :=
  [("days_back", BindVal.int days_back)] ++
    (match order_number with
      | some n => if n != 0 then [("order_number", BindVal.int n)] else []
      | none => []) ++
    (match ordered_item with
      | some s => if s != "" then [("ordered_item", BindVal.str ("%" ++ pyUpper s ++ "%"))] else []
      | none => []) ++
    (match dc with
      | some d => if d != 0 then [("dc", BindVal.int d)] else []
      | none => [])

/-! ## The hold-history query service (`order_hold_history_service.py`) -/

/-- `get_hold_history` (order_hold_history_service.py lines 49-100): the SQL text and
bind-parameter dictionary chosen by the `line_id is not None` test. -/
def holdHistoryQuerySpec (header_id : Int) (line_id : Option Int) :
    String × List (String × BindVal) :=
  match line_id with
  | some l =>
      (holdHistorySqlWithLine,
        [("header_id", BindVal.int header_id), ("line_id", BindVal.int l)])
  | none =>
      (holdHistorySqlHeaderOnly, [("header_id", BindVal.int header_id)])

/-! ## The connection lifecycle manager (`database.py`)

`get_oracle_connection` is a `@contextmanager` generator structured as
`conn = None; try: connect; session-setup; yield conn; except oracledb.Error: log; raise;
finally: if conn: conn.close()`.  It is modelled as a function of the three
environment outcomes (does the physical connect succeed, does the session-setup
statement succeed, how does the caller's body exit), producing the emitted event
trace and the overall exit kind.  The `except` clause only logs and re-raises, so it
is observationally the identity on the state; a body cancellation (an exception that
is not an `oracledb.Error`, e.g. `GeneratorExit`) skips the `except` clause but still
runs the `finally` clause. -/

/-- Observable events of one use of `get_oracle_connection`. -/
inductive ConnEvent
  | connected
  | setupDone
  | yielded
  | closed
deriving DecidableEq

/-- How the caller's body (the code inside the `with` block) exits. -/
inductive BodyOutcome
  | ok
  | raises
  | cancelled
deriving DecidableEq

/-- State threaded through the lifecycle: the emitted events and whether `conn`
is bound to an open connection (i.e. is not `None`). -/
structure ConnState where
  events : List ConnEvent
  connOpen : Bool
deriving DecidableEq

/-- `try ... finally fin`: the finaliser runs on every exit of the body. -/
def tryFinallyRun {α : Type} (body : ConnState → ConnState × α) (fin : ConnState → ConnState)
    (s : ConnState) : ConnState × α :=
  let (s1, r) := body s
  (fin s1, r)

/-- The whole of `get_oracle_connection` (database.py lines 36-64) for one unit of
work.  `connectOk` is whether `oracledb.connect` succeeds, `setupOk` whether the
mandatory session-setup statement succeeds, `body` how the caller's block exits. -/
def getOracleConnectionRun (connectOk setupOk : Bool) (body : BodyOutcome) :
    ConnState × BodyOutcome :=
  tryFinallyRun
    (fun s =>
      if !connectOk then (s, BodyOutcome.raises)
      else
        let s := { events := s.events ++ [ConnEvent.connected], connOpen := true }
        if !setupOk then (s, BodyOutcome.raises)
        else
          let s := { s with events := s.events ++ [ConnEvent.setupDone, ConnEvent.yielded] }
          (s, body))
    (fun s =>
      if s.connOpen then { s with events := s.events ++ [ConnEvent.closed] } else s)
    { events := [], connOpen := false }

/-! ## Row-to-model mapping (`dc_onhand_service.py`, `dc_location_service.py`)

A `RawRow` is the dictionary `dict(zip(columns, row))` built from the cursor
description, modelled as an insertion-ordered association list in which a later
binding for a key overwrites an earlier one, exactly as repeated keys behave in
Python dict construction. -/

/-- An engine value in a result row: SQL NULL, an integer, or a text. -/
inductive Val
  | vNull
  | vInt (n : Int)
  | vStr (s : String)
deriving DecidableEq

/-- `row_dict.get(k)`: `none` when the key is absent (later bindings win). -/
def dictGet (k : String) : List (String × Val) → Option Val
  | [] => none
  | (k2, v) :: rest =>
    match dictGet k rest with
    | some v2 => some v2
    | none => if k2 = k then some v else none

/-- Mapping failures: a required column absent from the row, or a value of the
wrong engine type for the declared field type. -/
inductive MappingError
  | missingField (name : String)
  | typeError (name : String)
deriving DecidableEq

/-- Validation of an optional integer-typed field: an absent column or a SQL NULL
becomes an absent field; an integer passes through.  (Numeric-string coercion,
which pydantic would also accept, is not modelled — no claim exercises it.) -/
def coerceOptInt (name : String) : Option Val → Except MappingError (Option Int)
  | none => .ok none
  | some Val.vNull => .ok none
  | some (Val.vInt n) => .ok (some n)
  | some (Val.vStr _) => .error (MappingError.typeError name)

/-- Validation of an optional text-typed field. -/
def coerceOptStr (name : String) : Option Val → Except MappingError (Option String)
  | none => .ok none
  | some Val.vNull => .ok none
  | some (Val.vStr s) => .ok (some s)
  | some (Val.vInt _) => .error (MappingError.typeError name)

/-- Validation of an optional numeric (float-typed) field.  The claims never
exercise fractional values, so the carried value is kept as an integer. -/
def coerceOptNum (name : String) : Option Val → Except MappingError (Option Int)
  | none => .ok none
  | some Val.vNull => .ok none
  | some (Val.vInt n) => .ok (some n)
  | some (Val.vStr _) => .error (MappingError.typeError name)

/-- `DCOnhandItem` (models/dc_onhand.py lines 6-48): every field optional. -/
structure DCOnhandItem where
  inventory_item_id : Option Int
  itemnumber : Option String
  item_description : Option String
  subinventory_code : Option String
  quantity : Option Int
  locator : Option String
  aisle : Option String
  customsubinventory : Option String
  vendor : Option String
  product_group : Option String
  productgrp_display : Option String
  vendor_display : Option String
  style : Option String
deriving DecidableEq

/-- `DCOnhandService._map_row_to_model` (dc_onhand_service.py lines 165-189).  The
source also passes `attribute7=row_dict.get("attribute7")`, a keyword that matches no
declared field; pydantic ignores unknown keywords, so it has no observable effect and
does not appear here.  The declared `customsubinventory` field is never passed a
value, so it is always absent. -/
def mapRowToOnhand (row : List (String × Val)) : Except MappingError DCOnhandItem := do
  let inventory_item_id ← coerceOptInt "inventory_item_id" (dictGet "inventory_item_id" row)
  let itemnumber ← coerceOptStr "itemnumber" (dictGet "itemnumber" row)
  let item_description ← coerceOptStr "item_description" (dictGet "item_description" row)
  let subinventory_code ← coerceOptStr "subinventory_code" (dictGet "subinventory_code" row)
  let quantity ← coerceOptNum "quantity" (dictGet "quantity" row)
  let locator ← coerceOptStr "locator" (dictGet "locator" row)
  let aisle ← coerceOptStr "aisle" (dictGet "aisle" row)
  let vendor ← coerceOptStr "vendor" (dictGet "vendor" row)
  let product_group ← coerceOptStr "product_group" (dictGet "product_group" row)
  let productgrp_display ← coerceOptStr "productgrp_display" (dictGet "productgrp_display" row)
  let vendor_display ← coerceOptStr "vendor_display" (dictGet "vendor_display" row)
  let style ← coerceOptStr "style" (dictGet "style" row)
  .ok
    { inventory_item_id, itemnumber, item_description, subinventory_code, quantity,
      locator, aisle, customsubinventory := none, vendor, product_group,
      productgrp_display, vendor_display, style }

/-- The column names `_map_row_to_model` reads into declared `DCOnhandItem` fields;
a column outside this list can only feed the dropped `attribute7` keyword or be
ignored entirely. -/
def onhandReadColumns : List String :=
  ["inventory_item_id", "itemnumber", "item_description", "subinventory_code",
   "quantity", "locator", "aisle", "vendor", "product_group",
   "productgrp_display", "vendor_display", "style"]

/-- Validation of a required text-typed field: an absent column is a missing-field
error; a SQL NULL or an integer is a type error. -/
def coerceReqStr (name : String) : Option Val → Except MappingError String
  | none => .error (MappingError.missingField name)
  | some Val.vNull => .error (MappingError.typeError name)
  | some (Val.vStr s) => .ok s
  | some (Val.vInt _) => .error (MappingError.typeError name)

/-- Validation of a required integer-typed field. -/
def coerceReqInt (name : String) : Option Val → Except MappingError Int
  | none => .error (MappingError.missingField name)
  | some Val.vNull => .error (MappingError.typeError name)
  | some (Val.vInt n) => .ok n
  | some (Val.vStr _) => .error (MappingError.typeError name)

/-- `DCLocation` (models/dc_location.py lines 6-29): all three fields required. -/
structure DCLocation where
  organization_code : String
  location_code : String
  organization_id : Int
deriving DecidableEq

/-- `DCLocation(**row_dict)` (dc_location_service.py line 69): pydantic validates the
declared required fields against the row dictionary. -/
def mapDCLocation (row : List (String × Val)) : Except MappingError DCLocation := do
  let organization_code ← coerceReqStr "organization_code" (dictGet "organization_code" row)
  let location_code ← coerceReqStr "location_code" (dictGet "location_code" row)
  let organization_id ← coerceReqInt "organization_id" (dictGet "organization_id" row)
  .ok { organization_code, location_code, organization_id }

/-- Mapping each row in order; the first failure aborts the whole invocation, as an
uncaught exception aborts the `for row in cursor` loop in the source. -/
def exceptMapList {ε α β : Type} (f : α → Except ε β) : List α → Except ε (List β)
  | [] => .ok []
  | a :: rest => do
    let b ← f a
    let bs ← exceptMapList f rest
    .ok (b :: bs)

/-- `get_dc_locations` (dc_location_service.py lines 58-77) from the fetched rows
onward: map every row, then assemble the response envelope (records plus total).
A row that fails to map aborts the invocation with the mapping error; no retry. -/
def getDCLocations (rows : List (List (String × Val))) :
    Except MappingError (List DCLocation × Nat) :=
  (exceptMapList mapDCLocation rows).map (fun locs => (locs, locs.length))

/-! ## Router-level filter validation (`routers/dc_order_lines.py`) -/

/-- A caller-supplied filter violating a declared constraint. -/
inductive InvalidFilterError
  | missingRequired (name : String)
  | outOfBounds (name : String)
deriving DecidableEq

/-- The declared Query constraints of `get_open_dc_order_lines`
(routers/dc_order_lines.py lines 14-38), enforced by the framework before the handler
body runs: `dc` is required with `ge=1`; `days_back` defaults to 60 and, when
supplied, must lie in `[1, 365]`; `order_number` and `ordered_item` are
unconstrained. -/
def validateOpenOrderLinesRequest (order_number : Option Int) (ordered_item : Option String)
    (dc : Option Int) (days_back : Option Int) :
    Except InvalidFilterError (Option Int × Option String × Int × Int) :=
  match dc with
  | none => .error (InvalidFilterError.missingRequired "dc")
  | some d =>
    if d < 1 then .error (InvalidFilterError.outOfBounds "dc")
    else
      match days_back with
      | some n =>
        if n < 1 ∨ 365 < n then .error (InvalidFilterError.outOfBounds "days_back")
        else .ok (order_number, ordered_item, d, n)
      | none => .ok (order_number, ordered_item, d, 60)

/-- Steps of the request pipeline that claim C8 observes. -/
inductive PipelineEvent
  | sqlBuilt
  | connectAttempted
deriving DecidableEq

/-- The route handler followed by `get_open_order_lines`: validation happens first;
only with validated filters does the service build the SQL (line 48), build the
parameters (lines 51-57) and then open a connection (line 59).  The result pairs the
emitted pipeline events with either the validation error or the query spec the
service would execute. -/
def openOrderLinesPipeline (order_number : Option Int) (ordered_item : Option String)
    (dc : Option Int) (days_back : Option Int) :
    List PipelineEvent × Except InvalidFilterError (String × List (String × BindVal)) :=
  match validateOpenOrderLinesRequest order_number ordered_item dc days_back with
  | .error e => ([], .error e)
  | .ok (on2, oi2, d, db2) =>
      ([PipelineEvent.sqlBuilt, PipelineEvent.connectAttempted],
        .ok (buildOpenOrderLinesQuery on2 oi2 (some d),
             openOrderLinesParams on2 oi2 (some d) db2))

/-! ## Scanning lemmas

Scans, substring tests and substring counts distribute over `++` at boundaries
that cannot split an occurrence, so every heavy computation below is done on
chunks short enough for kernel reduction. -/

theorem containsSub_cons (pat : List Char) (x : Char) (rest : List Char) :
    containsSub pat (x :: rest) = (pat.isPrefixOf (x :: rest) || containsSub pat rest) := by
  simp [containsSub]

theorem countSub_cons (pat : List Char) (x : Char) (rest : List Char) :
    countSub pat (x :: rest) =
      (if pat.isPrefixOf (x :: rest) then 1 else 0) + countSub pat rest := by
  simp [countSub]

theorem beq_false_of_not_mem_cons {p x : Char} {ps : List Char} (h : x ∉ p :: ps) :
    (p == x) = false :=
  beq_eq_false_iff_ne.mpr fun hpeq => h (List.mem_cons.mpr (Or.inl hpeq.symm))

theorem scanAux_append (a b : List Char) (st : Option (List Char))
    (h : finalState a st = none) :
    scanAux (a ++ b) st = scanAux a st ++ scanAux b none := by
  induction a generalizing st with
  | nil =>
    have hst : st = none := by simpa [finalState] using h
    subst hst
    simp [scanAux]
  | cons c rest ih =>
    cases st with
    | none =>
      have h2 : finalState rest (if c = ':' then some [] else none) = none := by
        simpa [finalState] using h
      by_cases hc : c = ':'
      · simp only [List.cons_append, scanAux, if_pos hc]
        exact ih _ (by simpa [hc] using h2)
      · simp only [List.cons_append, scanAux, if_neg hc]
        exact ih _ (by simpa [hc] using h2)
    | some acc =>
      have h2 : finalState rest
          (if isIdentChar c then some (c :: acc)
           else if c = ':' then some [] else none) = none := by
        simpa [finalState] using h
      by_cases hi : isIdentChar c
      · simp only [List.cons_append, scanAux, if_pos hi]
        exact ih _ (by simpa [hi] using h2)
      · by_cases hc : c = ':'
        · simp only [List.cons_append, scanAux, if_neg hi, if_pos hc]
          rw [List.append_assoc]
          exact congrArg _ (ih _ (by simpa [hi, hc] using h2))
        · simp only [List.cons_append, scanAux, if_neg hi, if_neg hc]
          rw [List.append_assoc]
          exact congrArg _ (ih _ (by simpa [hi, hc] using h2))

theorem scanAux_flatten (ls : List (List Char))
    (h : ∀ l ∈ ls, finalState l none = none) :
    scanAux ls.flatten none = (ls.map (fun l => scanAux l none)).flatten := by
  induction ls with
  | nil => simp [scanAux]
  | cons l rest ih =>
    rw [List.flatten_cons, scanAux_append _ _ _ (h l (List.mem_cons_self l rest)),
      List.map_cons, List.flatten_cons,
      ih (fun x hx => h x (List.mem_cons_of_mem l hx))]

theorem isPrefixOf_append_boundary (pat u b : List Char) (c : Char)
    (hlast : u.getLast? = some c) (hc : c ∉ pat) :
    pat.isPrefixOf (u ++ b) = pat.isPrefixOf u := by
  induction u generalizing pat with
  | nil => simp at hlast
  | cons x u2 ih =>
    cases pat with
    | nil => simp [List.isPrefixOf]
    | cons p ps =>
      cases u2 with
      | nil =>
        have hcx : x = c := by simpa using hlast
        have hx : x ∉ p :: ps := fun hm => hc (hcx ▸ hm)
        simp [List.isPrefixOf, beq_false_of_not_mem_cons hx]
      | cons y u3 =>
        have hlast2 : (y :: u3).getLast? = some c := by simpa using hlast
        have hps : c ∉ ps := fun h2 => hc (List.mem_cons_of_mem p h2)
        simp only [List.cons_append, List.isPrefixOf]
        exact congrArg _ (ih ps hlast2 hps)

theorem containsSub_append_boundary (pat a b : List Char) (c : Char)
    (hlast : a.getLast? = some c) (hc : c ∉ pat) :
    containsSub pat (a ++ b) = (containsSub pat a || containsSub pat b) := by
  induction a with
  | nil => simp at hlast
  | cons x a2 ih =>
    cases a2 with
    | nil =>
      have hcx : x = c := by simpa using hlast
      have hx : x ∉ pat := fun hm => hc (hcx ▸ hm)
      cases pat with
      | nil => simp [containsSub, List.isPrefixOf]
      | cons p ps =>
        simp [containsSub, List.isPrefixOf, beq_false_of_not_mem_cons hx]
    | cons y a3 =>
      have hlast2 : (y :: a3).getLast? = some c := by simpa using hlast
      have hpre : pat.isPrefixOf (x :: ((y :: a3) ++ b)) = pat.isPrefixOf (x :: y :: a3) := by
        have h0 := isPrefixOf_append_boundary pat (x :: y :: a3) b c hlast hc
        rwa [List.cons_append] at h0
      rw [List.cons_append, containsSub_cons pat x ((y :: a3) ++ b),
        containsSub_cons pat x (y :: a3), hpre, ih hlast2]
      simp [Bool.or_assoc]

theorem countSub_append_boundary (pat a b : List Char) (c : Char) (hne : pat ≠ [])
    (hlast : a.getLast? = some c) (hc : c ∉ pat) :
    countSub pat (a ++ b) = countSub pat a + countSub pat b := by
  induction a with
  | nil => simp at hlast
  | cons x a2 ih =>
    cases a2 with
    | nil =>
      have hcx : x = c := by simpa using hlast
      have hx : x ∉ pat := fun hm => hc (hcx ▸ hm)
      cases pat with
      | nil => exact absurd rfl hne
      | cons p ps =>
        simp [countSub, List.isPrefixOf, beq_false_of_not_mem_cons hx]
    | cons y a3 =>
      have hlast2 : (y :: a3).getLast? = some c := by simpa using hlast
      have hpre : pat.isPrefixOf (x :: ((y :: a3) ++ b)) = pat.isPrefixOf (x :: y :: a3) := by
        have h0 := isPrefixOf_append_boundary pat (x :: y :: a3) b c hlast hc
        rwa [List.cons_append] at h0
      rw [List.cons_append, countSub_cons pat x ((y :: a3) ++ b),
        countSub_cons pat x (y :: a3), hpre, ih hlast2]
      omega

theorem containsSub_flatten (pat : List Char) (ls : List (List Char)) (hne : pat ≠ [])
    (hnl : '\n' ∉ pat) (h : ∀ l ∈ ls, l.getLast? = some '\n') :
    containsSub pat ls.flatten = ls.any (fun l => containsSub pat l) := by
  induction ls with
  | nil =>
    cases pat with
    | nil => exact absurd rfl hne
    | cons p ps => simp [containsSub]
  | cons l rest ih =>
    rw [List.flatten_cons,
      containsSub_append_boundary pat l rest.flatten '\n'
        (h l (List.mem_cons_self l rest)) hnl,
      ih (fun x hx => h x (List.mem_cons_of_mem l hx)), List.any_cons]

theorem countSub_flatten (pat : List Char) (ls : List (List Char)) (hne : pat ≠ [])
    (hnl : '\n' ∉ pat) (h : ∀ l ∈ ls, l.getLast? = some '\n') :
    countSub pat ls.flatten = (ls.map (fun l => countSub pat l)).sum := by
  induction ls with
  | nil =>
    cases pat with
    | nil => exact absurd rfl hne
    | cons p ps => simp [countSub]
  | cons l rest ih =>
    rw [List.flatten_cons,
      countSub_append_boundary pat l rest.flatten '\n' hne
        (h l (List.mem_cons_self l rest)) hnl,
      ih (fun x hx => h x (List.mem_cons_of_mem l hx)), List.map_cons, List.sum_cons]

theorem isPrefixOf_append_of_isPrefixOf (pat u v : List Char)
    (h : pat.isPrefixOf u = true) : pat.isPrefixOf (u ++ v) = true := by
  induction pat generalizing u with
  | nil => simp [List.isPrefixOf]
  | cons p ps ih =>
    cases u with
    | nil => simp [List.isPrefixOf] at h
    | cons x u2 =>
      simp only [List.isPrefixOf, Bool.and_eq_true] at h
      simp only [List.cons_append, List.isPrefixOf, Bool.and_eq_true]
      exact ⟨h.1, ih u2 h.2⟩

theorem containsSub_append_left (pat a b : List Char)
    (h : containsSub pat a = true) : containsSub pat (a ++ b) = true := by
  induction a with
  | nil =>
    have : pat = [] := by simpa [containsSub, List.isEmpty_iff] using h
    subst this
    cases b with
    | nil => simp [containsSub]
    | cons x rest => simp [containsSub, List.isPrefixOf]
  | cons x a2 ih =>
    rw [containsSub_cons] at h
    rw [List.cons_append, containsSub_cons]
    rcases Bool.or_eq_true_iff.mp h with h1 | h2
    · rw [show x :: (a2 ++ b) = (x :: a2) ++ b from rfl,
        isPrefixOf_append_of_isPrefixOf pat (x :: a2) b h1]
      simp
    · rw [ih h2]
      simp

theorem containsSub_append_right (pat a b : List Char)
    (h : containsSub pat b = true) : containsSub pat (a ++ b) = true := by
  induction a with
  | nil => simpa using h
  | cons x a2 ih =>
    rw [List.cons_append, containsSub_cons, ih]
    simp

theorem containsSub_flatten_append (pat : List Char) (ls : List (List Char)) (b : List Char)
    (hnl : '\n' ∉ pat) (h : ∀ l ∈ ls, l.getLast? = some '\n') :
    containsSub pat (ls.flatten ++ b) =
      (ls.any (fun l => containsSub pat l) || containsSub pat b) := by
  induction ls with
  | nil => simp
  | cons l rest ih =>
    rw [List.flatten_cons, List.append_assoc,
      containsSub_append_boundary pat l (rest.flatten ++ b) '\n'
        (h l (List.mem_cons_self l rest)) hnl,
      ih (fun x hx => h x (List.mem_cons_of_mem l hx)), List.any_cons, Bool.or_assoc]

/-! ## Placeholder scans and fragment occurrence facts for the generated SQL -/

set_option maxRecDepth 4000 in
theorem scan_buildOpenOrderLines (order_number : Option Int) (ordered_item : Option String)
    (dc : Option Int) :
    scanPlaceholders (buildOpenOrderLinesQuery order_number ordered_item dc) =
      ["dc", "days_back"] ++
        (if pyTruthyInt order_number then ["order_number"] else []) ++
        (if pyTruthyStr ordered_item then ["ordered_item"] else []) ++
        ["dc", "dc", "days_back", "dc", "dc", "dc"] := by
  by_cases hON : pyTruthyInt order_number = true <;>
    by_cases hOI : pyTruthyStr ordered_item = true
  · have hdata : (buildOpenOrderLinesQuery order_number ordered_item dc).data =
        [openOrderLinesBaseChunk1.data, openOrderLinesBaseChunk2.data,
         openOrderLinesBaseChunk3.data, openOrderLinesBaseChunk4.data,
         openOrderLinesBaseChunk5.data, fragOrderNumber.data, fragOrderedItem.data,
         openOrderLinesTailChunk1.data, openOrderLinesTailChunk2.data,
         openOrderLinesTailChunk3.data, openOrderLinesTailChunk4.data,
         openOrderLinesTailChunk5.data, openOrderLinesTailChunk6.data,
         openOrderLinesTailChunk7.data, openOrderLinesTailChunk8.data,
         openOrderLinesTailChunk9.data].flatten := by
      simp [buildOpenOrderLinesQuery, hON, hOI, openOrderLinesBase, openOrderLinesTail,
        List.append_assoc]
    rw [scanPlaceholders, hdata, scanAux_flatten]
    · simp only [hON, hOI, if_true]
      rfl
    · intro l hl
      simp only [List.mem_cons, List.not_mem_nil, or_false] at hl
      rcases hl with rfl|rfl|rfl|rfl|rfl|rfl|rfl|rfl|rfl|rfl|rfl|rfl|rfl|rfl|rfl|rfl <;> rfl
  · have hdata : (buildOpenOrderLinesQuery order_number ordered_item dc).data =
        [openOrderLinesBaseChunk1.data, openOrderLinesBaseChunk2.data,
         openOrderLinesBaseChunk3.data, openOrderLinesBaseChunk4.data,
         openOrderLinesBaseChunk5.data, fragOrderNumber.data,
         openOrderLinesTailChunk1.data, openOrderLinesTailChunk2.data,
         openOrderLinesTailChunk3.data, openOrderLinesTailChunk4.data,
         openOrderLinesTailChunk5.data, openOrderLinesTailChunk6.data,
         openOrderLinesTailChunk7.data, openOrderLinesTailChunk8.data,
         openOrderLinesTailChunk9.data].flatten := by
      simp [buildOpenOrderLinesQuery, hON, hOI, openOrderLinesBase, openOrderLinesTail,
        List.append_assoc]
    rw [scanPlaceholders, hdata, scanAux_flatten]
    · simp only [hON, hOI, if_true, if_false]
      rfl
    · intro l hl
      simp only [List.mem_cons, List.not_mem_nil, or_false] at hl
      rcases hl with rfl|rfl|rfl|rfl|rfl|rfl|rfl|rfl|rfl|rfl|rfl|rfl|rfl|rfl|rfl <;> rfl
  · have hdata : (buildOpenOrderLinesQuery order_number ordered_item dc).data =
        [openOrderLinesBaseChunk1.data, openOrderLinesBaseChunk2.data,
         openOrderLinesBaseChunk3.data, openOrderLinesBaseChunk4.data,
         openOrderLinesBaseChunk5.data, fragOrderedItem.data,
         openOrderLinesTailChunk1.data, openOrderLinesTailChunk2.data,
         openOrderLinesTailChunk3.data, openOrderLinesTailChunk4.data,
         openOrderLinesTailChunk5.data, openOrderLinesTailChunk6.data,
         openOrderLinesTailChunk7.data, openOrderLinesTailChunk8.data,
         openOrderLinesTailChunk9.data].flatten := by
      simp [buildOpenOrderLinesQuery, hON, hOI, openOrderLinesBase, openOrderLinesTail,
        List.append_assoc]
    rw [scanPlaceholders, hdata, scanAux_flatten]
    · simp only [hON, hOI, if_true, if_false]
      rfl
    · intro l hl
      simp only [List.mem_cons, List.not_mem_nil, or_false] at hl
      rcases hl with rfl|rfl|rfl|rfl|rfl|rfl|rfl|rfl|rfl|rfl|rfl|rfl|rfl|rfl|rfl <;> rfl
  · have hdata : (buildOpenOrderLinesQuery order_number ordered_item dc).data =
        [openOrderLinesBaseChunk1.data, openOrderLinesBaseChunk2.data,
         openOrderLinesBaseChunk3.data, openOrderLinesBaseChunk4.data,
         openOrderLinesBaseChunk5.data,
         openOrderLinesTailChunk1.data, openOrderLinesTailChunk2.data,
         openOrderLinesTailChunk3.data, openOrderLinesTailChunk4.data,
         openOrderLinesTailChunk5.data, openOrderLinesTailChunk6.data,
         openOrderLinesTailChunk7.data, openOrderLinesTailChunk8.data,
         openOrderLinesTailChunk9.data].flatten := by
      simp [buildOpenOrderLinesQuery, hON, hOI, openOrderLinesBase, openOrderLinesTail,
        List.append_assoc]
    rw [scanPlaceholders, hdata, scanAux_flatten]
    · simp only [hON, hOI, if_false]
      rfl
    · intro l hl
      simp only [List.mem_cons, List.not_mem_nil, or_false] at hl
      rcases hl with rfl|rfl|rfl|rfl|rfl|rfl|rfl|rfl|rfl|rfl|rfl|rfl|rfl|rfl <;> rfl

theorem buildData_tt (order_number : Option Int) (ordered_item : Option String)
    (dc : Option Int) (hON : pyTruthyInt order_number = true)
    (hOI : pyTruthyStr ordered_item = true) :
    (buildOpenOrderLinesQuery order_number ordered_item dc).data =
      [openOrderLinesBaseChunk1.data, openOrderLinesBaseChunk2.data,
       openOrderLinesBaseChunk3.data, openOrderLinesBaseChunk4.data,
       openOrderLinesBaseChunk5.data, fragOrderNumber.data, fragOrderedItem.data,
       openOrderLinesTailChunk1.data, openOrderLinesTailChunk2.data,
       openOrderLinesTailChunk3.data, openOrderLinesTailChunk4.data,
       openOrderLinesTailChunk5.data, openOrderLinesTailChunk6.data,
       openOrderLinesTailChunk7.data, openOrderLinesTailChunk8.data,
       openOrderLinesTailChunk9.data].flatten := by
  simp [buildOpenOrderLinesQuery, hON, hOI, openOrderLinesBase, openOrderLinesTail,
    List.append_assoc]

theorem buildData_tf (order_number : Option Int) (ordered_item : Option String)
    (dc : Option Int) (hON : pyTruthyInt order_number = true)
    (hOI : ¬pyTruthyStr ordered_item = true) :
    (buildOpenOrderLinesQuery order_number ordered_item dc).data =
      [openOrderLinesBaseChunk1.data, openOrderLinesBaseChunk2.data,
       openOrderLinesBaseChunk3.data, openOrderLinesBaseChunk4.data,
       openOrderLinesBaseChunk5.data, fragOrderNumber.data,
       openOrderLinesTailChunk1.data, openOrderLinesTailChunk2.data,
       openOrderLinesTailChunk3.data, openOrderLinesTailChunk4.data,
       openOrderLinesTailChunk5.data, openOrderLinesTailChunk6.data,
       openOrderLinesTailChunk7.data, openOrderLinesTailChunk8.data,
       openOrderLinesTailChunk9.data].flatten := by
  simp [buildOpenOrderLinesQuery, hON, hOI, openOrderLinesBase, openOrderLinesTail,
    List.append_assoc]

theorem buildData_ft (order_number : Option Int) (ordered_item : Option String)
    (dc : Option Int) (hON : ¬pyTruthyInt order_number = true)
    (hOI : pyTruthyStr ordered_item = true) :
    (buildOpenOrderLinesQuery order_number ordered_item dc).data =
      [openOrderLinesBaseChunk1.data, openOrderLinesBaseChunk2.data,
       openOrderLinesBaseChunk3.data, openOrderLinesBaseChunk4.data,
       openOrderLinesBaseChunk5.data, fragOrderedItem.data,
       openOrderLinesTailChunk1.data, openOrderLinesTailChunk2.data,
       openOrderLinesTailChunk3.data, openOrderLinesTailChunk4.data,
       openOrderLinesTailChunk5.data, openOrderLinesTailChunk6.data,
       openOrderLinesTailChunk7.data, openOrderLinesTailChunk8.data,
       openOrderLinesTailChunk9.data].flatten := by
  simp [buildOpenOrderLinesQuery, hON, hOI, openOrderLinesBase, openOrderLinesTail,
    List.append_assoc]

theorem buildData_ff (order_number : Option Int) (ordered_item : Option String)
    (dc : Option Int) (hON : ¬pyTruthyInt order_number = true)
    (hOI : ¬pyTruthyStr ordered_item = true) :
    (buildOpenOrderLinesQuery order_number ordered_item dc).data =
      [openOrderLinesBaseChunk1.data, openOrderLinesBaseChunk2.data,
       openOrderLinesBaseChunk3.data, openOrderLinesBaseChunk4.data,
       openOrderLinesBaseChunk5.data,
       openOrderLinesTailChunk1.data, openOrderLinesTailChunk2.data,
       openOrderLinesTailChunk3.data, openOrderLinesTailChunk4.data,
       openOrderLinesTailChunk5.data, openOrderLinesTailChunk6.data,
       openOrderLinesTailChunk7.data, openOrderLinesTailChunk8.data,
       openOrderLinesTailChunk9.data].flatten := by
  simp [buildOpenOrderLinesQuery, hON, hOI, openOrderLinesBase, openOrderLinesTail,
    List.append_assoc]

set_option maxRecDepth 4000 in
theorem countStr_fragON_build (order_number : Option Int) (ordered_item : Option String)
    (dc : Option Int) :
    countStr "AND order_number = :order_number"
        (buildOpenOrderLinesQuery order_number ordered_item dc) =
      if pyTruthyInt order_number then 1 else 0 := by
  by_cases hON : pyTruthyInt order_number = true <;>
    by_cases hOI : pyTruthyStr ordered_item = true
  · rw [countStr, buildData_tt order_number ordered_item dc hON hOI, countSub_flatten]
    · simp only [hON, if_true]
      rfl
    · decide
    · decide
    · intro l hl
      simp only [List.mem_cons, List.not_mem_nil, or_false] at hl
      rcases hl with rfl|rfl|rfl|rfl|rfl|rfl|rfl|rfl|rfl|rfl|rfl|rfl|rfl|rfl|rfl|rfl <;> rfl
  · rw [countStr, buildData_tf order_number ordered_item dc hON hOI, countSub_flatten]
    · simp only [hON, if_true]
      rfl
    · decide
    · decide
    · intro l hl
      simp only [List.mem_cons, List.not_mem_nil, or_false] at hl
      rcases hl with rfl|rfl|rfl|rfl|rfl|rfl|rfl|rfl|rfl|rfl|rfl|rfl|rfl|rfl|rfl <;> rfl
  · rw [countStr, buildData_ft order_number ordered_item dc hON hOI, countSub_flatten]
    · simp only [hON, if_false]
      rfl
    · decide
    · decide
    · intro l hl
      simp only [List.mem_cons, List.not_mem_nil, or_false] at hl
      rcases hl with rfl|rfl|rfl|rfl|rfl|rfl|rfl|rfl|rfl|rfl|rfl|rfl|rfl|rfl|rfl <;> rfl
  · rw [countStr, buildData_ff order_number ordered_item dc hON hOI, countSub_flatten]
    · simp only [hON, if_false]
      rfl
    · decide
    · decide
    · intro l hl
      simp only [List.mem_cons, List.not_mem_nil, or_false] at hl
      rcases hl with rfl|rfl|rfl|rfl|rfl|rfl|rfl|rfl|rfl|rfl|rfl|rfl|rfl|rfl <;> rfl

set_option maxRecDepth 4000 in
theorem countStr_fragOI_build (order_number : Option Int) (ordered_item : Option String)
    (dc : Option Int) :
    countStr "AND UPPER(ORDERED_ITEM) LIKE :ordered_item"
        (buildOpenOrderLinesQuery order_number ordered_item dc) =
      if pyTruthyStr ordered_item then 1 else 0 := by
  by_cases hON : pyTruthyInt order_number = true <;>
    by_cases hOI : pyTruthyStr ordered_item = true
  · rw [countStr, buildData_tt order_number ordered_item dc hON hOI, countSub_flatten]
    · simp only [hOI, if_true]
      rfl
    · decide
    · decide
    · intro l hl
      simp only [List.mem_cons, List.not_mem_nil, or_false] at hl
      rcases hl with rfl|rfl|rfl|rfl|rfl|rfl|rfl|rfl|rfl|rfl|rfl|rfl|rfl|rfl|rfl|rfl <;> rfl
  · rw [countStr, buildData_tf order_number ordered_item dc hON hOI, countSub_flatten]
    · simp only [hOI, if_false]
      rfl
    · decide
    · decide
    · intro l hl
      simp only [List.mem_cons, List.not_mem_nil, or_false] at hl
      rcases hl with rfl|rfl|rfl|rfl|rfl|rfl|rfl|rfl|rfl|rfl|rfl|rfl|rfl|rfl|rfl <;> rfl
  · rw [countStr, buildData_ft order_number ordered_item dc hON hOI, countSub_flatten]
    · simp only [hOI, if_true]
      rfl
    · decide
    · decide
    · intro l hl
      simp only [List.mem_cons, List.not_mem_nil, or_false] at hl
      rcases hl with rfl|rfl|rfl|rfl|rfl|rfl|rfl|rfl|rfl|rfl|rfl|rfl|rfl|rfl|rfl <;> rfl
  · rw [countStr, buildData_ff order_number ordered_item dc hON hOI, countSub_flatten]
    · simp only [hOI, if_false]
      rfl
    · decide
    · decide
    · intro l hl
      simp only [List.mem_cons, List.not_mem_nil, or_false] at hl
      rcases hl with rfl|rfl|rfl|rfl|rfl|rfl|rfl|rfl|rfl|rfl|rfl|rfl|rfl|rfl <;> rfl

set_option maxRecDepth 4000 in
theorem countStr_likeUpper_build (order_number : Option Int) (ordered_item : Option String)
    (dc : Option Int) :
    countStr "UPPER(ORDERED_ITEM) LIKE"
        (buildOpenOrderLinesQuery order_number ordered_item dc) =
      if pyTruthyStr ordered_item then 1 else 0 := by
  by_cases hON : pyTruthyInt order_number = true <;>
    by_cases hOI : pyTruthyStr ordered_item = true
  · rw [countStr, buildData_tt order_number ordered_item dc hON hOI, countSub_flatten]
    · simp only [hOI, if_true]
      rfl
    · decide
    · decide
    · intro l hl
      simp only [List.mem_cons, List.not_mem_nil, or_false] at hl
      rcases hl with rfl|rfl|rfl|rfl|rfl|rfl|rfl|rfl|rfl|rfl|rfl|rfl|rfl|rfl|rfl|rfl <;> rfl
  · rw [countStr, buildData_tf order_number ordered_item dc hON hOI, countSub_flatten]
    · simp only [hOI, if_false]
      rfl
    · decide
    · decide
    · intro l hl
      simp only [List.mem_cons, List.not_mem_nil, or_false] at hl
      rcases hl with rfl|rfl|rfl|rfl|rfl|rfl|rfl|rfl|rfl|rfl|rfl|rfl|rfl|rfl|rfl <;> rfl
  · rw [countStr, buildData_ft order_number ordered_item dc hON hOI, countSub_flatten]
    · simp only [hOI, if_true]
      rfl
    · decide
    · decide
    · intro l hl
      simp only [List.mem_cons, List.not_mem_nil, or_false] at hl
      rcases hl with rfl|rfl|rfl|rfl|rfl|rfl|rfl|rfl|rfl|rfl|rfl|rfl|rfl|rfl|rfl <;> rfl
  · rw [countStr, buildData_ff order_number ordered_item dc hON hOI, countSub_flatten]
    · simp only [hOI, if_false]
      rfl
    · decide
    · decide
    · intro l hl
      simp only [List.mem_cons, List.not_mem_nil, or_false] at hl
      rcases hl with rfl|rfl|rfl|rfl|rfl|rfl|rfl|rfl|rfl|rfl|rfl|rfl|rfl|rfl <;> rfl

theorem containsSub_of_countSub_pos (pat l : List Char) (h : 0 < countSub pat l) :
    containsSub pat l = true := by
  induction l with
  | nil =>
    simp only [countSub] at h
    simp only [containsSub]
    by_cases he : pat.isEmpty = true
    · exact he
    · rw [if_neg he] at h
      omega
  | cons x rest ih =>
    rw [countSub_cons] at h
    rw [containsSub_cons]
    by_cases hp : pat.isPrefixOf (x :: rest) = true
    · simp [hp]
    · have hp2 : pat.isPrefixOf (x :: rest) = false := Bool.eq_false_iff.mpr hp
      rw [hp2] at h
      simp only [Bool.false_eq_true, if_false, Nat.zero_add] at h
      rw [hp2, ih h]
      simp

theorem containsSub_eq_false_of_countSub_zero (pat l : List Char) (hne : pat ≠ [])
    (h : countSub pat l = 0) : containsSub pat l = false := by
  induction l with
  | nil =>
    cases pat with
    | nil => exact absurd rfl hne
    | cons p ps => simp [containsSub]
  | cons x rest ih =>
    rw [countSub_cons] at h
    rw [containsSub_cons]
    by_cases hp : pat.isPrefixOf (x :: rest) = true
    · rw [hp] at h
      simp at h
    · have hp2 : pat.isPrefixOf (x :: rest) = false := Bool.eq_false_iff.mpr hp
      rw [hp2] at h
      simp only [Bool.false_eq_true, if_false, Nat.zero_add] at h
      rw [hp2, ih h]
      simp

set_option maxRecDepth 4000 in
theorem tailChunk2_split :
    openOrderLinesTailChunk2.data =
      openOrderLinesTailChunk2a.data ++ openOrderLinesTailChunk2b.data := by
  decide

theorem tail_split :
    openOrderLinesTail = openOrderLinesTailPreUnion ++ openOrderLinesTailFromUnion := by
  apply String.ext
  simp only [openOrderLinesTail, openOrderLinesTailPreUnion, openOrderLinesTailFromUnion,
    String.data_append, tailChunk2_split, List.append_assoc]

theorem build_fromUnion_suffix (order_number : Option Int) (ordered_item : Option String)
    (dc : Option Int) :
    ∃ p, buildOpenOrderLinesQuery order_number ordered_item dc =
      p ++ openOrderLinesTailFromUnion := by
  by_cases hON : pyTruthyInt order_number = true <;>
    by_cases hOI : pyTruthyStr ordered_item = true <;>
    · simp only [buildOpenOrderLinesQuery, hON, hOI, if_true, if_false]
      rw [tail_split, ← String.append_assoc]
      exact ⟨_, rfl⟩

set_option maxRecDepth 4000 in
theorem countStr_fragON_fromUnion :
    countStr "AND order_number = :order_number" openOrderLinesTailFromUnion = 0 := by
  have hdata : openOrderLinesTailFromUnion.data =
      [openOrderLinesTailChunk2b.data, openOrderLinesTailChunk3.data,
       openOrderLinesTailChunk4.data, openOrderLinesTailChunk5.data,
       openOrderLinesTailChunk6.data, openOrderLinesTailChunk7.data,
       openOrderLinesTailChunk8.data, openOrderLinesTailChunk9.data].flatten := by
    simp [openOrderLinesTailFromUnion, List.append_assoc]
  rw [countStr, hdata, countSub_flatten]
  · rfl
  · decide
  · decide
  · intro l hl
    simp only [List.mem_cons, List.not_mem_nil, or_false] at hl
    rcases hl with rfl|rfl|rfl|rfl|rfl|rfl|rfl|rfl <;> rfl

set_option maxRecDepth 4000 in
theorem countStr_fragOI_fromUnion :
    countStr "AND UPPER(ORDERED_ITEM) LIKE :ordered_item" openOrderLinesTailFromUnion = 0 := by
  have hdata : openOrderLinesTailFromUnion.data =
      [openOrderLinesTailChunk2b.data, openOrderLinesTailChunk3.data,
       openOrderLinesTailChunk4.data, openOrderLinesTailChunk5.data,
       openOrderLinesTailChunk6.data, openOrderLinesTailChunk7.data,
       openOrderLinesTailChunk8.data, openOrderLinesTailChunk9.data].flatten := by
    simp [openOrderLinesTailFromUnion, List.append_assoc]
  rw [countStr, hdata, countSub_flatten]
  · rfl
  · decide
  · decide
  · intro l hl
    simp only [List.mem_cons, List.not_mem_nil, or_false] at hl
    rcases hl with rfl|rfl|rfl|rfl|rfl|rfl|rfl|rfl <;> rfl

set_option maxRecDepth 4000 in
theorem containsStr_unionAll_preUnion :
    containsStr "union all"
      (openOrderLinesBase ++ fragOrderNumber ++ openOrderLinesTailPreUnion) = false := by
  have hdata : (openOrderLinesBase ++ fragOrderNumber ++ openOrderLinesTailPreUnion).data =
      [openOrderLinesBaseChunk1.data, openOrderLinesBaseChunk2.data,
       openOrderLinesBaseChunk3.data, openOrderLinesBaseChunk4.data,
       openOrderLinesBaseChunk5.data, fragOrderNumber.data,
       openOrderLinesTailChunk1.data].flatten ++ openOrderLinesTailChunk2a.data := by
    simp [openOrderLinesBase, openOrderLinesTailPreUnion, List.append_assoc]
  rw [containsStr, hdata, containsSub_flatten_append]
  · rfl
  · decide
  · intro l hl
    simp only [List.mem_cons, List.not_mem_nil, or_false] at hl
    rcases hl with rfl|rfl|rfl|rfl|rfl|rfl|rfl <;> rfl

/-- C2 counterexample: at the concrete accepted input `order_number = 42` (with
`dc = 84` and no `ordered_item`), the SQL built with the filter and the SQL built
without it share, verbatim, everything from the first `union all` separator on —
in particular the entire second UNION branch — and the added predicate fragment
occurs exactly once, strictly before that separator.  So supplying the optional
filter does not change the second branch's predicate set at all: the claimed
symmetric filtering of both branches is false. -/
theorem union_filter_symmetry_counterexample :
    (buildOpenOrderLinesQuery (some 42) none (some 84) =
        (openOrderLinesBase ++ fragOrderNumber ++ openOrderLinesTailPreUnion) ++
          openOrderLinesTailFromUnion) ∧
    (buildOpenOrderLinesQuery none none (some 84) =
        (openOrderLinesBase ++ openOrderLinesTailPreUnion) ++
          openOrderLinesTailFromUnion) ∧
    countStr "AND order_number = :order_number"
        (buildOpenOrderLinesQuery (some 42) none (some 84)) = 1 ∧
    countStr "AND order_number = :order_number" openOrderLinesTailFromUnion = 0 ∧
    containsStr "union all"
        (openOrderLinesBase ++ fragOrderNumber ++ openOrderLinesTailPreUnion) = false ∧
    List.isPrefixOf "union all".data openOrderLinesTailFromUnion.data = true := by
  refine ⟨?_, ?_, ?_, countStr_fragON_fromUnion, containsStr_unionAll_preUnion, ?_⟩
  · show (openOrderLinesBase ++ fragOrderNumber) ++ openOrderLinesTail = _
    rw [tail_split, ← String.append_assoc, String.append_assoc openOrderLinesBase]
  · show openOrderLinesBase ++ openOrderLinesTail = _
    rw [tail_split, ← String.append_assoc]
  · rw [countStr_fragON_build (some 42) none (some 84)]
    decide
  · rfl

/-- C2 (amended): supplying an optional filter (order_number or ordered_item) appends
its predicate fragment to the first branch of the UNION ALL only.  The fragment then
occurs exactly once in the generated SQL; everything from the `union all` separator on
— the entire second branch and the outer SELECT — is one fixed suffix, independent of
the optional filters, in which neither fragment occurs. -/
theorem union_filter_applied_to_first_branch_only
    (order_number : Option Int) (ordered_item : Option String) (dc : Option Int) :
    (∃ p, buildOpenOrderLinesQuery order_number ordered_item dc =
        p ++ openOrderLinesTailFromUnion) ∧
    (pyTruthyInt order_number = true →
      countStr "AND order_number = :order_number"
        (buildOpenOrderLinesQuery order_number ordered_item dc) = 1) ∧
    (pyTruthyStr ordered_item = true →
      countStr "AND UPPER(ORDERED_ITEM) LIKE :ordered_item"
        (buildOpenOrderLinesQuery order_number ordered_item dc) = 1) ∧
    countStr "AND order_number = :order_number" openOrderLinesTailFromUnion = 0 ∧
    countStr "AND UPPER(ORDERED_ITEM) LIKE :ordered_item" openOrderLinesTailFromUnion = 0 := by
  refine ⟨build_fromUnion_suffix order_number ordered_item dc, fun hON => ?_, fun hOI => ?_,
    countStr_fragON_fromUnion, countStr_fragOI_fromUnion⟩
  · rw [countStr_fragON_build order_number ordered_item dc, if_pos hON]
  · rw [countStr_fragOI_build order_number ordered_item dc, if_pos hOI]

/-- Witness for the amended C2 theorem at a concrete input. -/
theorem union_filter_applied_to_first_branch_only_witness :
    countStr "AND order_number = :order_number"
        (buildOpenOrderLinesQuery (some 42) (some "ABC") (some 84)) = 1 ∧
    countStr "AND UPPER(ORDERED_ITEM) LIKE :ordered_item"
        (buildOpenOrderLinesQuery (some 42) (some "ABC") (some 84)) = 1 :=
  ⟨(union_filter_applied_to_first_branch_only (some 42) (some "ABC") (some 84)).2.1
      (by decide),
   (union_filter_applied_to_first_branch_only (some 42) (some "ABC") (some 84)).2.2.1
      (by decide)⟩

/-- C1: for every FilterSet accepted by the open-order-lines service (`dc` present and
positive, any combination of `order_number` and `ordered_item` present or absent), the
set of named placeholders in the SQL text returned by `_build_open_order_lines_query`
equals the set of keys of the bind dictionary built in `get_open_order_lines`: no
unbound placeholder, no unused bind entry. -/
theorem open_order_lines_placeholders_match_binds
    (order_number : Option Int) (ordered_item : Option String) (d days_back : Int)
    (hd : 0 < d) :
    (scanPlaceholders
        (buildOpenOrderLinesQuery order_number ordered_item (some d))).toFinset =
      ((openOrderLinesParams order_number ordered_item (some d) days_back).map
          Prod.fst).toFinset := by
  have hd2 : (d != 0) = true := bne_iff_ne.mpr (by omega)
  rw [scan_buildOpenOrderLines]
  cases order_number with
  | none =>
    cases ordered_item with
    | none =>
      have hkeys : (openOrderLinesParams none none (some d) days_back).map Prod.fst =
          ["days_back", "dc"] := by simp [openOrderLinesParams, hd2]
      rw [hkeys]
      decide
    | some s =>
      by_cases hs : (s != "") = true
      · have hkeys : (openOrderLinesParams none (some s) (some d) days_back).map
            Prod.fst = ["days_back", "ordered_item", "dc"] := by
          simp [openOrderLinesParams, hs, hd2]
        rw [hkeys, show pyTruthyStr (some s) = true from hs]
        decide
      · have hs2 : (s != "") = false := Bool.eq_false_iff.mpr hs
        have hkeys : (openOrderLinesParams none (some s) (some d) days_back).map
            Prod.fst = ["days_back", "dc"] := by
          simp [openOrderLinesParams, hs2, hd2]
        rw [hkeys, show pyTruthyStr (some s) = false from hs2]
        decide
  | some n =>
    by_cases hn : (n != 0) = true
    · cases ordered_item with
      | none =>
        have hkeys : (openOrderLinesParams (some n) none (some d) days_back).map
            Prod.fst = ["days_back", "order_number", "dc"] := by
          simp [openOrderLinesParams, hn, hd2]
        rw [hkeys, show pyTruthyInt (some n) = true from hn]
        decide
      | some s =>
        by_cases hs : (s != "") = true
        · have hkeys : (openOrderLinesParams (some n) (some s) (some d) days_back).map
              Prod.fst = ["days_back", "order_number", "ordered_item", "dc"] := by
            simp [openOrderLinesParams, hn, hs, hd2]
          rw [hkeys, show pyTruthyInt (some n) = true from hn,
            show pyTruthyStr (some s) = true from hs]
          decide
        · have hs2 : (s != "") = false := Bool.eq_false_iff.mpr hs
          have hkeys : (openOrderLinesParams (some n) (some s) (some d) days_back).map
              Prod.fst = ["days_back", "order_number", "dc"] := by
            simp [openOrderLinesParams, hn, hs2, hd2]
          rw [hkeys, show pyTruthyInt (some n) = true from hn,
            show pyTruthyStr (some s) = false from hs2]
          decide
    · have hn2 : (n != 0) = false := Bool.eq_false_iff.mpr hn
      cases ordered_item with
      | none =>
        have hkeys : (openOrderLinesParams (some n) none (some d) days_back).map
            Prod.fst = ["days_back", "dc"] := by
          simp [openOrderLinesParams, hn2, hd2]
        rw [hkeys, show pyTruthyInt (some n) = false from hn2]
        decide
      | some s =>
        by_cases hs : (s != "") = true
        · have hkeys : (openOrderLinesParams (some n) (some s) (some d) days_back).map
              Prod.fst = ["days_back", "ordered_item", "dc"] := by
            simp [openOrderLinesParams, hn2, hs, hd2]
          rw [hkeys, show pyTruthyInt (some n) = false from hn2,
            show pyTruthyStr (some s) = true from hs]
          decide
        · have hs2 : (s != "") = false := Bool.eq_false_iff.mpr hs
          have hkeys : (openOrderLinesParams (some n) (some s) (some d) days_back).map
              Prod.fst = ["days_back", "dc"] := by
            simp [openOrderLinesParams, hn2, hs2, hd2]
          rw [hkeys, show pyTruthyInt (some n) = false from hn2,
            show pyTruthyStr (some s) = false from hs2]
          decide

/-- Witness for C1 at a concrete accepted FilterSet. -/
theorem open_order_lines_placeholders_match_binds_witness :
    (scanPlaceholders
        (buildOpenOrderLinesQuery (some 100001) (some "ABC") (some 84))).toFinset =
      ((openOrderLinesParams (some 100001) (some "ABC") (some 84) 60).map
          Prod.fst).toFinset :=
  open_order_lines_placeholders_match_binds (some 100001) (some "ABC") 84 60 (by decide)

/-- C3: with `dc` present and positive and both optional filters absent, the built SQL
contains neither the optional order-number fragment (`AND order_number = :order_number`,
the only place the `:order_number` placeholder could come from) nor any
`UPPER(ORDERED_ITEM) LIKE` fragment, and the bind dictionary has exactly the keys
`days_back` and `dc`. -/
theorem open_order_lines_no_optional_fragments_when_absent (d days_back : Int)
    (hd : 0 < d) :
    containsStr "AND order_number = :order_number"
        (buildOpenOrderLinesQuery none none (some d)) = false ∧
    containsStr "UPPER(ORDERED_ITEM) LIKE"
        (buildOpenOrderLinesQuery none none (some d)) = false ∧
    "order_number" ∉ scanPlaceholders (buildOpenOrderLinesQuery none none (some d)) ∧
    "ordered_item" ∉ scanPlaceholders (buildOpenOrderLinesQuery none none (some d)) ∧
    (openOrderLinesParams none none (some d) days_back).map Prod.fst =
      ["days_back", "dc"] := by
  have hd2 : (d != 0) = true := bne_iff_ne.mpr (by omega)
  refine ⟨?_, ?_, ?_, ?_, by simp [openOrderLinesParams, hd2]⟩
  · show containsSub _ _ = false
    apply containsSub_eq_false_of_countSub_zero _ _ (by decide)
    have h := countStr_fragON_build none none (some d)
    simpa [countStr, pyTruthyInt] using h
  · show containsSub _ _ = false
    apply containsSub_eq_false_of_countSub_zero _ _ (by decide)
    have h := countStr_likeUpper_build none none (some d)
    simpa [countStr, pyTruthyStr] using h
  · rw [scan_buildOpenOrderLines]
    decide
  · rw [scan_buildOpenOrderLines]
    decide

/-- Witness for C3 at the spec's example scenario (dc 84, days_back 60). -/
theorem open_order_lines_no_optional_fragments_when_absent_witness :
    containsStr "AND order_number = :order_number"
        (buildOpenOrderLinesQuery none none (some 84)) = false ∧
    containsStr "UPPER(ORDERED_ITEM) LIKE"
        (buildOpenOrderLinesQuery none none (some 84)) = false ∧
    "order_number" ∉ scanPlaceholders (buildOpenOrderLinesQuery none none (some 84)) ∧
    "ordered_item" ∉ scanPlaceholders (buildOpenOrderLinesQuery none none (some 84)) ∧
    (openOrderLinesParams none none (some 84) 60).map Prod.fst =
      ["days_back", "dc"] :=
  open_order_lines_no_optional_fragments_when_absent 84 60 (by decide)

/-- C9: every non-empty ordered_item filter is bound as the upper-cased input wrapped
in `%` wildcards, and the SQL compares through `UPPER(ORDERED_ITEM) LIKE :ordered_item`
(both sides upper-cased). -/
theorem ordered_item_upper_wildcard_binding
    (order_number : Option Int) (s : String) (dc : Option Int) (days_back : Int)
    (hs : s ≠ "") :
    ("ordered_item", BindVal.str ("%" ++ pyUpper s ++ "%")) ∈
        openOrderLinesParams order_number (some s) dc days_back ∧
    containsStr "UPPER(ORDERED_ITEM) LIKE :ordered_item"
        (buildOpenOrderLinesQuery order_number (some s) dc) = true := by
  have hs2 : (s != "") = true := bne_iff_ne.mpr hs
  constructor
  · simp [openOrderLinesParams, hs2]
  · show containsSub _ _ = true
    by_cases hON : pyTruthyInt order_number = true
    · rw [buildData_tt order_number (some s) dc hON hs2]
      simp only [List.flatten_cons, List.flatten_nil, List.append_nil]
      refine containsSub_append_right _ _ _ (containsSub_append_right _ _ _
        (containsSub_append_right _ _ _ (containsSub_append_right _ _ _
        (containsSub_append_right _ _ _ (containsSub_append_right _ _ _
        (containsSub_append_left _ _ _ (by rfl)))))))
    · rw [buildData_ft order_number (some s) dc hON hs2]
      simp only [List.flatten_cons, List.flatten_nil, List.append_nil]
      refine containsSub_append_right _ _ _ (containsSub_append_right _ _ _
        (containsSub_append_right _ _ _ (containsSub_append_right _ _ _
        (containsSub_append_right _ _ _
        (containsSub_append_left _ _ _ (by rfl))))))

/-- Witness for C9 at a concrete non-empty filter. -/
theorem ordered_item_upper_wildcard_binding_witness :
    ("ordered_item", BindVal.str ("%" ++ pyUpper "abc" ++ "%")) ∈
        openOrderLinesParams none (some "abc") (some 84) 60 ∧
    containsStr "UPPER(ORDERED_ITEM) LIKE :ordered_item"
        (buildOpenOrderLinesQuery none (some "abc") (some 84)) = true :=
  ordered_item_upper_wildcard_binding none "abc" (some 84) 60 (by decide)

/-- C10 (implicit edge case): the service tests optional filters by Python truthiness,
so `order_number = 0` and `ordered_item = ""` behave exactly as absent filters: the
built SQL and the bind dictionary coincide with the unfiltered ones — no predicate
fragment, no bind entry. -/
theorem falsy_optional_filters_behave_as_absent (dc : Option Int) (days_back : Int) :
    buildOpenOrderLinesQuery (some 0) (some "") dc =
      buildOpenOrderLinesQuery none none dc ∧
    openOrderLinesParams (some 0) (some "") dc days_back =
      openOrderLinesParams none none dc days_back ∧
    "order_number" ∉ (openOrderLinesParams (some 0) (some "") dc days_back).map
        Prod.fst ∧
    "ordered_item" ∉ (openOrderLinesParams (some 0) (some "") dc days_back).map
        Prod.fst ∧
    containsStr "AND order_number = :order_number"
        (buildOpenOrderLinesQuery (some 0) (some "") dc) = false ∧
    containsStr "AND UPPER(ORDERED_ITEM) LIKE :ordered_item"
        (buildOpenOrderLinesQuery (some 0) (some "") dc) = false := by
  refine ⟨rfl, rfl, ?_, ?_, ?_, ?_⟩
  · cases dc with
    | none => simp [openOrderLinesParams]
    | some dv =>
      by_cases hdv : (dv != 0) = true
      · simp [openOrderLinesParams, hdv]
      · simp [openOrderLinesParams, Bool.eq_false_iff.mpr hdv]
  · cases dc with
    | none => simp [openOrderLinesParams]
    | some dv =>
      by_cases hdv : (dv != 0) = true
      · simp [openOrderLinesParams, hdv]
      · simp [openOrderLinesParams, Bool.eq_false_iff.mpr hdv]
  · show containsSub _ _ = false
    apply containsSub_eq_false_of_countSub_zero _ _ (by decide)
    have h := countStr_fragON_build (some 0) (some "") dc
    simpa [countStr, pyTruthyInt] using h
  · show containsSub _ _ = false
    apply containsSub_eq_false_of_countSub_zero _ _ (by decide)
    have h := countStr_fragOI_build (some 0) (some "") dc
    simpa [countStr, pyTruthyStr] using h

/-! ## Claims about the connection lifecycle, hold history, mapping and validation -/

/-- C4: for every environment behaviour (connect success/failure, session-setup
success/failure) and every body exit (normal, exception, cancellation), the number of
close events equals the number of physical connects (so an opened connection is closed
exactly once, and nothing is closed when the dial failed); when a connection was
opened, the close is the last action, so it happens before any error propagates; and
when connect or setup fails, the connection is never yielded to the caller and the
invocation raises. -/
theorem oracle_connection_close_exactly_once (connectOk setupOk : Bool)
    (body : BodyOutcome) :
    ((getOracleConnectionRun connectOk setupOk body).1.events.count ConnEvent.closed =
      (getOracleConnectionRun connectOk setupOk body).1.events.count
        ConnEvent.connected) ∧
    (getOracleConnectionRun connectOk setupOk body).1.events.count
        ConnEvent.closed ≤ 1 ∧
    (connectOk = true →
      (getOracleConnectionRun connectOk setupOk body).1.events.count
          ConnEvent.closed = 1 ∧
      (getOracleConnectionRun connectOk setupOk body).1.events.getLast? =
        some ConnEvent.closed) ∧
    ((connectOk = false ∨ setupOk = false) →
      ConnEvent.yielded ∉ (getOracleConnectionRun connectOk setupOk body).1.events ∧
      (getOracleConnectionRun connectOk setupOk body).2 = BodyOutcome.raises) := by
  cases connectOk <;> cases setupOk <;> cases body <;> decide

/-- Witness for C4: connect succeeded but session setup failed. -/
theorem oracle_connection_close_exactly_once_witness :
    (getOracleConnectionRun true false BodyOutcome.ok).1.events.count
        ConnEvent.closed = 1 ∧
    ConnEvent.yielded ∉ (getOracleConnectionRun true false BodyOutcome.ok).1.events ∧
    (getOracleConnectionRun true false BodyOutcome.ok).2 = BodyOutcome.raises :=
  ⟨((oracle_connection_close_exactly_once true false BodyOutcome.ok).2.2.1 rfl).1,
   ((oracle_connection_close_exactly_once true false BodyOutcome.ok).2.2.2
      (Or.inr rfl)).1,
   ((oracle_connection_close_exactly_once true false BodyOutcome.ok).2.2.2
      (Or.inr rfl)).2⟩

set_option maxRecDepth 4000 in
/-- C5: with no line_id the hold-history SQL is a single SELECT restricted to
`header_id = :header_id AND line_id IS NULL`, with no UNION and the bind key set
exactly `{header_id}`; with a line_id it is a UNION of that header-level branch with a
`line_id = :line_id` branch and the bind key set is exactly `{header_id, line_id}`. -/
theorem hold_history_query_shape (header_id : Int) (line_id : Option Int) :
    (line_id = none →
      countStr "SELECT" (holdHistoryQuerySpec header_id line_id).1 = 1 ∧
      containsStr "UNION" (holdHistoryQuerySpec header_id line_id).1 = false ∧
      containsStr "header_id = :header_id"
        (holdHistoryQuerySpec header_id line_id).1 = true ∧
      containsStr "line_id IS NULL" (holdHistoryQuerySpec header_id line_id).1 = true ∧
      (holdHistoryQuerySpec header_id line_id).2.map Prod.fst = ["header_id"] ∧
      (scanPlaceholders (holdHistoryQuerySpec header_id line_id).1).toFinset =
        ((holdHistoryQuerySpec header_id line_id).2.map Prod.fst).toFinset) ∧
    (∀ lv, line_id = some lv →
      countStr "SELECT" (holdHistoryQuerySpec header_id line_id).1 = 2 ∧
      containsStr "UNION" (holdHistoryQuerySpec header_id line_id).1 = true ∧
      containsStr "line_id IS NULL" (holdHistoryQuerySpec header_id line_id).1 = true ∧
      containsStr "line_id = :line_id"
        (holdHistoryQuerySpec header_id line_id).1 = true ∧
      (holdHistoryQuerySpec header_id line_id).2.map Prod.fst =
        ["header_id", "line_id"] ∧
      (scanPlaceholders (holdHistoryQuerySpec header_id line_id).1).toFinset =
        ((holdHistoryQuerySpec header_id line_id).2.map Prod.fst).toFinset) := by
  constructor
  · rintro rfl
    refine ⟨rfl, rfl, rfl, rfl, by simp [holdHistoryQuerySpec], ?_⟩
    have hscan : scanPlaceholders (holdHistoryQuerySpec header_id none).1 =
        ["header_id"] := by rfl
    rw [hscan, show (holdHistoryQuerySpec header_id none).2.map Prod.fst =
      ["header_id"] from by simp [holdHistoryQuerySpec]]
  · rintro lv rfl
    have hdata : (holdHistoryQuerySpec header_id (some lv)).1.data =
        holdHistorySqlWithLineChunk1.data ++ holdHistorySqlWithLineChunk2.data := by
      simp [holdHistoryQuerySpec, holdHistorySqlWithLine]
    have hlast : holdHistorySqlWithLineChunk1.data.getLast? = some '\n' := by rfl
    refine ⟨?_, ?_, ?_, ?_, by simp [holdHistoryQuerySpec], ?_⟩
    · rw [countStr, hdata,
        countSub_append_boundary _ _ _ '\n' (by decide) hlast (by decide)]
      rfl
    · rw [containsStr, hdata,
        containsSub_append_boundary _ _ _ '\n' hlast (by decide)]
      rfl
    · rw [containsStr, hdata,
        containsSub_append_boundary _ _ _ '\n' hlast (by decide)]
      rfl
    · rw [containsStr, hdata,
        containsSub_append_boundary _ _ _ '\n' hlast (by decide)]
      rfl
    · have hscan : scanPlaceholders (holdHistoryQuerySpec header_id (some lv)).1 =
          ["header_id", "header_id", "line_id"] := by
        rw [scanPlaceholders, hdata, scanAux_append _ _ _ (by rfl)]
        rfl
      rw [hscan, show (holdHistoryQuerySpec header_id (some lv)).2.map Prod.fst =
        ["header_id", "line_id"] from by simp [holdHistoryQuerySpec]]
      decide

/-- Witness for C5 at the spec's example header_id, with and without a line_id. -/
theorem hold_history_query_shape_witness :
    countStr "SELECT" (holdHistoryQuerySpec 12345678 none).1 = 1 ∧
    countStr "SELECT" (holdHistoryQuerySpec 12345678 (some 5)).1 = 2 :=
  ⟨((hold_history_query_shape 12345678 none).1 rfl).1,
   ((hold_history_query_shape 12345678 (some 5)).2 5 rfl).1⟩

theorem dictGet_append_single (k q : String) (v : Val) (row : List (String × Val))
    (h : k ≠ q) : dictGet q (row ++ [(k, v)]) = dictGet q row := by
  induction row with
  | nil => simp [dictGet, h]
  | cons p rest ih =>
    obtain ⟨k2, v2⟩ := p
    simp only [List.cons_append, dictGet, List.append_eq, ih]

/-- C6: the onhand row mapper sends a SQL NULL in any optional column to an absent
field and never fails on it; columns that feed no declared field are ignored; and the
spec's example row maps to a record with `inventory_item_id = 5` and `quantity`
absent. -/
theorem onhand_mapping_null_optional_and_extra_columns :
    (∀ name, coerceOptInt name (some Val.vNull) = Except.ok none) ∧
    (∀ name, coerceOptStr name (some Val.vNull) = Except.ok none) ∧
    (∀ name, coerceOptNum name (some Val.vNull) = Except.ok none) ∧
    (∀ (row : List (String × Val)) (k : String) (v : Val), k ∉ onhandReadColumns →
      mapRowToOnhand (row ++ [(k, v)]) = mapRowToOnhand row) ∧
    mapRowToOnhand [("inventory_item_id", Val.vInt 5), ("quantity", Val.vNull)] =
      Except.ok
        { inventory_item_id := some 5, itemnumber := none, item_description := none,
          subinventory_code := none, quantity := none, locator := none, aisle := none,
          customsubinventory := none, vendor := none, product_group := none,
          productgrp_display := none, vendor_display := none, style := none } := by
  refine ⟨fun name => rfl, fun name => rfl, fun name => rfl, ?_, rfl⟩
  intro row k v hk
  have hget : ∀ q, q ∈ onhandReadColumns → dictGet q (row ++ [(k, v)]) = dictGet q row :=
    fun q hq => dictGet_append_single k q v row (fun he => hk (by rw [he]; exact hq))
  simp only [mapRowToOnhand]
  rw [hget "inventory_item_id" (by decide), hget "itemnumber" (by decide),
    hget "item_description" (by decide), hget "subinventory_code" (by decide),
    hget "quantity" (by decide), hget "locator" (by decide), hget "aisle" (by decide),
    hget "vendor" (by decide), hget "product_group" (by decide),
    hget "productgrp_display" (by decide), hget "vendor_display" (by decide),
    hget "style" (by decide)]

/-- Witness for C6: an unknown extra column is ignored. -/
theorem onhand_mapping_null_optional_and_extra_columns_witness :
    mapRowToOnhand ([("inventory_item_id", Val.vInt 5), ("quantity", Val.vNull)] ++
        [("totally_unknown", Val.vStr "x")]) =
      mapRowToOnhand [("inventory_item_id", Val.vInt 5), ("quantity", Val.vNull)] :=
  onhand_mapping_null_optional_and_extra_columns.2.2.2.1
    [("inventory_item_id", Val.vInt 5), ("quantity", Val.vNull)]
    "totally_unknown" (Val.vStr "x") (by decide)

theorem exceptMapList_error_of_mem {ε α β : Type} (f : α → Except ε β) (a : α)
    (l : List α) (ha : a ∈ l) (he : ∃ e, f a = Except.error e) :
    ∃ e, exceptMapList f l = Except.error e := by
  induction l with
  | nil => cases ha
  | cons x rest ih =>
    rcases List.mem_cons.mp ha with rfl | hmem
    · rcases he with ⟨e, hfe⟩
      refine ⟨e, ?_⟩
      simp only [exceptMapList]
      rw [hfe]
      rfl
    · cases hfx : f x with
      | error e =>
        refine ⟨e, ?_⟩
        simp only [exceptMapList]
        rw [hfx]
        rfl
      | ok b =>
        rcases ih hmem with ⟨e, hrest⟩
        refine ⟨e, ?_⟩
        simp only [exceptMapList]
        rw [hfx, hrest]
        rfl

/-- C7: a row missing a column for one of the declared required DC-location fields
(`organization_code`, `location_code`, `organization_id`) never maps to a record; it
raises a `MappingError`, and any invocation of `get_dc_locations` whose fetched rows
include such a row aborts with a mapping error (no retry, no partial response). -/
theorem dc_location_missing_required_raises_mapping_error
    (row : List (String × Val))
    (h : dictGet "organization_code" row = none ∨ dictGet "location_code" row = none ∨
         dictGet "organization_id" row = none) :
    (∀ loc, mapDCLocation row ≠ Except.ok loc) ∧
    (∃ e, mapDCLocation row = Except.error e) ∧
    (∀ rows1 rows2 : List (List (String × Val)),
      ∃ e2, getDCLocations (rows1 ++ row :: rows2) = Except.error e2) := by
  have herr : ∃ e, mapDCLocation row = Except.error e := by
    rcases h with h1 | h2 | h3
    · refine ⟨MappingError.missingField "organization_code", ?_⟩
      simp only [mapDCLocation]
      rw [h1]
      rfl
    · cases hoc : coerceReqStr "organization_code" (dictGet "organization_code" row) with
      | error e =>
        refine ⟨e, ?_⟩
        simp only [mapDCLocation]
        rw [hoc]
        rfl
      | ok oc =>
        refine ⟨MappingError.missingField "location_code", ?_⟩
        simp only [mapDCLocation]
        rw [hoc, h2]
        rfl
    · cases hoc : coerceReqStr "organization_code" (dictGet "organization_code" row) with
      | error e =>
        refine ⟨e, ?_⟩
        simp only [mapDCLocation]
        rw [hoc]
        rfl
      | ok oc =>
        cases hlc : coerceReqStr "location_code" (dictGet "location_code" row) with
        | error e =>
          refine ⟨e, ?_⟩
          simp only [mapDCLocation]
          rw [hoc, hlc]
          rfl
        | ok lc =>
          refine ⟨MappingError.missingField "organization_id", ?_⟩
          simp only [mapDCLocation]
          rw [hoc, hlc, h3]
          rfl
  refine ⟨?_, herr, ?_⟩
  · intro loc hok
    rcases herr with ⟨e, he⟩
    rw [hok] at he
    exact Except.noConfusion he
  · intro rows1 rows2
    rcases exceptMapList_error_of_mem mapDCLocation row (rows1 ++ row :: rows2)
      (List.mem_append_right _ (List.mem_cons_self _ _)) herr with ⟨e, hmap⟩
    refine ⟨e, ?_⟩
    simp only [getDCLocations]
    rw [hmap]
    rfl

/-- Witness for C7: a row with only a location_code (organization_code missing). -/
theorem dc_location_missing_required_raises_mapping_error_witness :
    ∃ e, mapDCLocation [("location_code", Val.vStr "084 DENVER")] = Except.error e :=
  (dc_location_missing_required_raises_mapping_error
    [("location_code", Val.vStr "084 DENVER")] (Or.inl rfl)).2.1

/-- C8: a request missing the required `dc` filter, or carrying `dc < 1` or a supplied
`days_back` outside `[1, 365]`, fails validation with an `InvalidFilterError`, and the
pipeline performs no step at all: no SQL is built and no connection is attempted. -/
theorem invalid_filters_rejected_before_sql_and_connection
    (order_number : Option Int) (ordered_item : Option String) (dc : Option Int)
    (days_back : Option Int)
    (h : dc = none ∨ (∃ d, dc = some d ∧ d < 1) ∨
         (∃ n, days_back = some n ∧ (n < 1 ∨ 365 < n))) :
    (openOrderLinesPipeline order_number ordered_item dc days_back).1 = [] ∧
    ∃ e, (openOrderLinesPipeline order_number ordered_item dc days_back).2 =
      Except.error e := by
  rcases h with rfl | ⟨d, rfl, hd⟩ | ⟨n, hn, hb⟩
  · exact ⟨rfl, ⟨InvalidFilterError.missingRequired "dc", rfl⟩⟩
  · constructor
    · simp [openOrderLinesPipeline, validateOpenOrderLinesRequest, hd]
    · exact ⟨InvalidFilterError.outOfBounds "dc", by
        simp [openOrderLinesPipeline, validateOpenOrderLinesRequest, hd]⟩
  · subst hn
    cases dc with
    | none => exact ⟨rfl, ⟨InvalidFilterError.missingRequired "dc", rfl⟩⟩
    | some d =>
      by_cases hd : d < 1
      · constructor
        · simp [openOrderLinesPipeline, validateOpenOrderLinesRequest, hd]
        · exact ⟨InvalidFilterError.outOfBounds "dc", by
            simp [openOrderLinesPipeline, validateOpenOrderLinesRequest, hd]⟩
      · constructor
        · simp [openOrderLinesPipeline, validateOpenOrderLinesRequest, hd, hb]
        · exact ⟨InvalidFilterError.outOfBounds "days_back", by
            simp [openOrderLinesPipeline, validateOpenOrderLinesRequest, hd, hb]⟩

/-- Witness for C8: a non-positive `dc`. -/
theorem invalid_filters_rejected_before_sql_and_connection_witness :
    (openOrderLinesPipeline none none (some 0) none).1 = [] ∧
    ∃ e, (openOrderLinesPipeline none none (some 0) none).2 = Except.error e :=
  invalid_filters_rejected_before_sql_and_connection none none (some 0) none
    (Or.inr (Or.inl ⟨0, rfl, by decide⟩))
